import Mathlib

/-!
Shallow embedding of the colognebanckend payment-checkout backend.

The repository consists of several near-duplicate Express/Stripe/Supabase
server variants:

* `src/index.js` (first variant, lines 1-232): the primary server, with a
  global `express.json()` middleware and a webhook handler that recomputes
  the order total from cart items.
* `src/unnamed/part_000`: a variant whose webhook handler records
  `session.amount_total / 100` as the order total instead.
* `src/unnamed/part_001`: contains two further variants; the first has a
  `verifyAuth` middleware that provisions a missing profile row, the second
  has a `verifyAuth` with an unverified-JWT-payload fallback.
* `src/unnamed/part_002`: a variant whose checkout handler rejects empty
  line items via `!line_items?.length`.

Monetary amounts are modelled as rationals (the JS code uses ordinary
numbers; every amount in the claims is exactly representable).  Datastore
tables are lists of rows; each Supabase call that can return an error object
is modelled through an explicit fault flag, because the JS code branches on
the returned `error` field rather than on exceptions.
-/

/-- Row of the `products` table (the columns selected by the webhook join). -/
structure ProductRow where
  id : String
  name : String
  price : Rat
deriving DecidableEq, Repr

/-- Row of the `carts` table. -/
structure CartRow where
  id : String
  user_id : String
deriving DecidableEq, Repr

/-- Row of the `cart_items` table. -/
structure CartItemRow where
  cart_id : String
  product_id : String
  quantity : Nat
deriving DecidableEq, Repr

/-- Row of the `orders` table, with the columns written by the webhook
handler of `src/index.js`. -/
structure OrderRow where
  id : String
  user_id : Option String
  status : String
  total : Rat
  stripe_session_id : String
  payment_status : String
  fulfillment_status : String
deriving DecidableEq, Repr

/-- Row of the `order_items` table. -/
structure OrderItemRow where
  order_id : String
  product_id : String
  quantity : Nat
  price : Rat
deriving DecidableEq, Repr

/-- The datastore state touched by the webhook handler. -/
structure Db where
  carts : List CartRow
  cart_items : List CartItemRow
  products : List ProductRow
  orders : List OrderRow
  order_items : List OrderItemRow
deriving DecidableEq, Repr

/-- The checkout-session object carried by a `checkout.session.completed`
event (`event.data.object`), restricted to the fields the handlers read.
`metadata_user_id` is `session.metadata.user_id`; `amount_total` is the
processor-reported amount in cents. -/
structure Session where
  id : String
  metadata_user_id : Option String
  amount_total : Rat
  payment_status : String
deriving DecidableEq, Repr

/-- A verified Stripe event: a type discriminator and the session payload. -/
structure StripeEvent where
  type : String
  session : Session
deriving DecidableEq, Repr

/-- Internal failure causes of the order-materialization block.  The
source throws `Error` with message `Cart not found`, rethrows Supabase error objects of
the three datastore writes/reads, and hits a TypeError when a joined product
is null; all are caught by the same `catch`.  `missingCorrelation` is the
failure kind named by the spec (section 4.4 step 1); the source never
raises it, the constructor exists only so the claim can be stated. -/
inductive OrderError where
  | cartNotFound
  | cartItemsError
  | nullProduct
  | orderInsertError
  | orderItemsError
  | missingCorrelation
deriving DecidableEq, Repr

/-- HTTP outcome of the webhook route: a 400 signature rejection, a 500
`Failed to process order` (carrying the logged internal cause),
or the 200 `{received: true}` acknowledgement. -/
inductive WebhookResp where
  | sigError (msg : String)
  | processError (e : OrderError)
  | received
deriving DecidableEq, Repr

/-- HTTP status code of a webhook response. -/
def respStatus : WebhookResp → Nat
  | .sigError _ => 400
  | .processError _ => 500
  | .received => 200

/-- Datastore operations, in the order the webhook handler issues them. -/
inductive DbOp where
  | selectCarts
  | selectCartItems
  | insertOrder
  | insertOrderItems
  | deleteCartItems
deriving DecidableEq, Repr

/-- Which of the Supabase calls inside the webhook handler return an error
object (the handlers branch on the returned `error` field). -/
structure DbFaults where
  cartItemsSelectFail : Bool
  orderInsertFail : Bool
  itemsInsertFail : Bool
  cartDeleteFail : Bool
deriving DecidableEq, Repr

/-- No datastore call fails. -/
def noFaults : DbFaults :=
  { cartItemsSelectFail := false, orderInsertFail := false,
    itemsInsertFail := false, cartDeleteFail := false }

/-- The `carts` lookup `select id, eq user_id, single`:
`.single()` yields data exactly when one row matches; its error is ignored
by the handler (`const { data: cartData } = ...`), a missing row surfaces as
`cartData` being null.  A `userId` of `none` models the JS `undefined`,
which the query serializes to a literal that matches no uuid row. -/
def cartLookup (db : Db) (uid : Option String) : Option CartRow :=
  match db.carts.filter (fun c => uid == some c.user_id) with
  | [c] => some c
  | _ => none

/-- The `cart_items` select with the embedded `products` join.  The join
returns a null product when no row matches; the handlers then hit a
TypeError reading `item.products.price`, so the joined list is `none`
exactly when some cart item lacks a product row. -/
def joinItems (db : Db) (cartId : String) : Option (List (CartItemRow × ProductRow)) :=
  (db.cart_items.filter (fun ci => ci.cart_id == cartId)).mapM
    (fun ci => (db.products.find? (fun p => p.id == ci.product_id)).map (fun p => (ci, p)))

/-- The total computed by `src/index.js`: `cartItems.reduce((sum, item) =>
sum + item.products.price * item.quantity, 0)`. -/
def cartSum (joined : List (CartItemRow × ProductRow)) : Rat :=
  joined.foldl (fun acc x => acc + x.2.price * (x.1.quantity : Rat)) 0

/-- Id the datastore assigns to the inserted order row (returned by
`.insert(...).select().single()`); modelled as a fresh key derived from the
table size. -/
def nextOrderId (db : Db) : String :=
  "order_" ++ toString db.orders.length

/-- The order row inserted by `src/index.js` lines 178-190. -/
def mkOrderRow (db : Db) (s : Session) (total : Rat) : OrderRow :=
  { id := nextOrderId db, user_id := s.metadata_user_id, status := "completed",
    total := total, stripe_session_id := s.id,
    payment_status := s.payment_status, fulfillment_status := "pending" }

/-- The order-item rows built by `cartItems.map` in `src/index.js`
lines 195-200. -/
def mkOrderItems (oid : String) (joined : List (CartItemRow × ProductRow)) : List OrderItemRow :=
  joined.map (fun x =>
    { order_id := oid, product_id := x.1.product_id,
      quantity := x.1.quantity, price := x.2.price })

/-- The body of the `checkout.session.completed` branch of the
`POST /api/webhook` handler of `src/index.js` (lines 141-219): look up the
cart, load cart items joined with products, reduce the total from the cart,
insert one order row, insert the order items, delete the cart items (the
error object of the delete is ignored), returning the HTTP outcome, the new
datastore state and the trace of datastore operations issued. -/
def webhookProcessCompleted (f : DbFaults) (db : Db) (s : Session) :
    WebhookResp × Db × List DbOp :=
  match cartLookup db s.metadata_user_id with
  | none => (.processError .cartNotFound, db, [.selectCarts])
  | some cart =>
    if f.cartItemsSelectFail then
      (.processError .cartItemsError, db, [.selectCarts, .selectCartItems])
    else
      match joinItems db cart.id with
      | none => (.processError .nullProduct, db, [.selectCarts, .selectCartItems])
      | some joined =>
        let total := cartSum joined
        if f.orderInsertFail then
          (.processError .orderInsertError, db,
            [.selectCarts, .selectCartItems, .insertOrder])
        else
          let order := mkOrderRow db s total
          let db1 := { db with orders := db.orders ++ [order] }
          if f.itemsInsertFail then
            (.processError .orderItemsError, db1,
              [.selectCarts, .selectCartItems, .insertOrder, .insertOrderItems])
          else
            let db2 := { db1 with
              order_items := db1.order_items ++ mkOrderItems order.id joined }
            if f.cartDeleteFail then
              (.received, db2,
                [.selectCarts, .selectCartItems, .insertOrder, .insertOrderItems,
                 .deleteCartItems])
            else
              (.received,
                { db2 with
                  cart_items := db2.cart_items.filter (fun ci => ci.cart_id != cart.id) },
                [.selectCarts, .selectCartItems, .insertOrder, .insertOrderItems,
                 .deleteCartItems])

/-- The event dispatch of the webhook handler: only events of type
`checkout.session.completed` are processed, every other event is
acknowledged untouched (`src/index.js` lines 140-221). -/
def handleEvent (f : DbFaults) (db : Db) (e : StripeEvent) :
    WebhookResp × Db × List DbOp :=
  if e.type = "checkout.session.completed" then
    webhookProcessCompleted f db e.session
  else
    (.received, db, [])

/-- The `checkout.session.completed` branch of the webhook handler of
`src/unnamed/part_000` (lines 128-201).  It differs from `src/index.js` in
one step: the order total is `session.amount_total / 100`, the
processor-reported amount, not the cart sum; consequently a null joined
product only surfaces while mapping the order items, after the order row
has already been inserted.  The cart-delete error is ignored there too. -/
def webhookProcessCompletedP0 (f : DbFaults) (db : Db) (s : Session) :
    WebhookResp × Db × List DbOp :=
  match cartLookup db s.metadata_user_id with
  | none => (.processError .cartNotFound, db, [.selectCarts])
  | some cart =>
    if f.cartItemsSelectFail then
      (.processError .cartItemsError, db, [.selectCarts, .selectCartItems])
    else
      if f.orderInsertFail then
        (.processError .orderInsertError, db,
          [.selectCarts, .selectCartItems, .insertOrder])
      else
        let order := mkOrderRow db s (s.amount_total / 100)
        let db1 := { db with orders := db.orders ++ [order] }
        match joinItems db cart.id with
        | none =>
          (.processError .nullProduct, db1,
            [.selectCarts, .selectCartItems, .insertOrder])
        | some joined =>
          if f.itemsInsertFail then
            (.processError .orderItemsError, db1,
              [.selectCarts, .selectCartItems, .insertOrder, .insertOrderItems])
          else
            let db2 := { db1 with
              order_items := db1.order_items ++ mkOrderItems order.id joined }
            if f.cartDeleteFail then
              (.received, db2,
                [.selectCarts, .selectCartItems, .insertOrder, .insertOrderItems,
                 .deleteCartItems])
            else
              (.received,
                { db2 with
                  cart_items := db2.cart_items.filter (fun ci => ci.cart_id != cart.id) },
                [.selectCarts, .selectCartItems, .insertOrder, .insertOrderItems,
                 .deleteCartItems])

/-- Event dispatch of the `src/unnamed/part_000` webhook handler. -/
def handleEventP0 (f : DbFaults) (db : Db) (e : StripeEvent) :
    WebhookResp × Db × List DbOp :=
  if e.type = "checkout.session.completed" then
    webhookProcessCompletedP0 f db e.session
  else
    (.received, db, [])

/-- The body value a request carries when it reaches the webhook route
handler: either the original raw bytes, or the object produced by
`express.json()` from those bytes. -/
inductive HandlerBody where
  | raw (bytes : String)
  | parsed (bytes : String)
deriving DecidableEq, Repr

/-- External Stripe SDK behaviour the handlers depend on: the shared-secret
signature check over the exact raw bytes, and the parsing of a verified
payload into an event.  Both are collaborators outside this repository. -/
structure StripeEnv where
  validSig : String → String → Bool
  parseEvent : String → StripeEvent

/-- Model of `stripe.webhooks.constructEvent(payload, sig, secret)`: the SDK
throws when the payload is not a raw string/buffer (for example when a JSON
middleware already parsed it), throws when the signature header is absent,
verifies the signature against the raw bytes otherwise, and yields the
typed event on success. -/
def constructEvent (env : StripeEnv) (body : HandlerBody) (sig : Option String) :
    Except String StripeEvent :=
  match body with
  | .parsed _ => .error "Webhook payload must be provided as a string or a Buffer"
  | .raw b =>
    match sig with
    | none => .error "No stripe-signature header value was provided"
    | some sg =>
      if env.validSig b sg then .ok (env.parseEvent b)
      else .error "signature verification failed"

/-- Middleware pipeline of `src/index.js` (first variant): line 40 registers
`app.use(express.json())` before the webhook route, with no path exclusion,
so an `application/json` body is parsed before the route-level
`express.raw` (which skips an already-consumed body). -/
def bodyAtWebhookIndexJs (bytes : String) : HandlerBody := .parsed bytes

/-- Middleware pipeline of the variants (`src/index.js` second variant
lines 270-276, `src/unnamed/part_000` lines 30-36, and the part_001/002
counterparts) that skip `express.json()` for the webhook path: the raw
bytes reach the route handler. -/
def bodyAtWebhookSkipJson (bytes : String) : HandlerBody := .raw bytes

/-- The full `POST /api/webhook` route of `src/index.js`: the body as
delivered by the middleware pipeline is handed to `constructEvent`; a
verification failure is answered with 400 and nothing is processed,
otherwise the event is dispatched. -/
def webhookRoute (bodyMW : String → HandlerBody) (env : StripeEnv)
    (f : DbFaults) (db : Db) (bytes : String) (sig : Option String) :
    WebhookResp × Db × List DbOp :=
  match constructEvent env (bodyMW bytes) sig with
  | .error m => (.sigError m, db, [])
  | .ok e => handleEvent f db e

/-- A line item of a checkout request.  The handlers under study never
inspect the items beyond counting them, so only the quantity is kept. -/
structure LineItem where
  quantity : Nat
deriving DecidableEq, Repr

/-- Response of the create-checkout-session handlers. -/
inductive CheckoutResp where
  | missingFields
  | noItems
  | userNotFound
  | ok (sessionId : String)
  | serverError (msg : String)
deriving DecidableEq, Repr

/-- HTTP status code of a checkout response. -/
def checkoutStatus : CheckoutResp → Nat
  | .missingFields => 400
  | .noItems => 400
  | .userNotFound => 401
  | .ok _ => 200
  | .serverError _ => 500

/-- JavaScript truthiness of an optional string field: absent (undefined)
and the empty string are falsy. -/
def jsFalsyStr : Option String → Bool
  | none => true
  | some s => s = ""

/-- JavaScript truthiness of an optional array field: only an absent field
is falsy — an empty array is truthy, so `!line_items` does not reject it. -/
def jsFalsyList : Option (List LineItem) → Bool
  | none => true
  | some _ => false

/-- JavaScript truthiness of `line_items?.length`: falsy when the field is
absent (optional chaining yields undefined) or the array is empty. -/
def jsFalsyLen : Option (List LineItem) → Bool
  | none => true
  | some l => l.length = 0

/-- Request body of `POST /api/create-checkout-session` in `src/index.js`. -/
structure CheckoutReq where
  line_items : Option (List LineItem)
  success_url : Option String
  cancel_url : Option String
  customer_email : Option String
deriving DecidableEq, Repr

/-- External collaborators of the `src/index.js` checkout handler: the
Supabase `auth.admin.getUserByEmail` lookup (yielding a user id) and the
Stripe `checkout.sessions.create` call (yielding a session id). -/
structure CheckoutEnv where
  getUserByEmail : String → Option String
  createSession : Unit → Except String String

/-- The `POST /api/create-checkout-session` handler of `src/index.js`
(lines 57-122): reject with 400 when a required field is JS-falsy (note
that an empty `line_items` array is truthy and passes), answer 401 when the
user lookup fails, then call the processor.  The boolean in the result
records whether the processor was called. -/
def createCheckoutSession (env : CheckoutEnv) (r : CheckoutReq) :
    CheckoutResp × Bool :=
  if jsFalsyList r.line_items || jsFalsyStr r.success_url
      || jsFalsyStr r.cancel_url || jsFalsyStr r.customer_email then
    (.missingFields, false)
  else
    match env.getUserByEmail (r.customer_email.getD "") with
    | none => (.userNotFound, false)
    | some _ =>
      match env.createSession () with
      | .ok sid => (.ok sid, true)
      | .error m => (.serverError m, true)

/-- The `POST /api/create-checkout-session` handler of
`src/unnamed/part_002` (lines 302-374), as entered after `verifyAuth`:
reject with 400 `No items in cart` when `!line_items?.length` — absent or
empty — then call the processor. -/
def createCheckoutSessionP2 (env : CheckoutEnv) (line_items : Option (List LineItem)) :
    CheckoutResp × Bool :=
  if jsFalsyLen line_items then
    (.noItems, false)
  else
    match env.createSession () with
    | .ok sid => (.ok sid, true)
    | .error m => (.serverError m, true)

/-- Replacement of the first occurrence of a nonempty pattern, on
character lists. -/
def replaceFirstList (pat rep : List Char) : List Char → List Char
  | [] => []
  | c :: cs =>
    if pat.isPrefixOf (c :: cs) then rep ++ (c :: cs).drop pat.length
    else c :: replaceFirstList pat rep cs

/-- JavaScript `String.prototype.replace` with a string pattern: replaces
only the first occurrence (an empty pattern inserts the replacement at the
start, as in JS). -/
def replaceFirst (s pat rep : String) : String :=
  match pat.data with
  | [] => rep ++ s
  | p :: ps => String.mk (replaceFirstList (p :: ps) rep.data s.data)

/-- The auth-provider user object returned by `supabase.auth.getUser`,
with the metadata fields the provisioning path reads. -/
structure AuthUser where
  id : String
  email : String
  meta_full_name : Option String
deriving DecidableEq, Repr

/-- Row of the `profiles` table, with the columns written by the
provisioning path of `verifyAuth`. -/
structure ProfileRow where
  id : String
  email : String
  full_name : String
  created_at : String
deriving DecidableEq, Repr

/-- External collaborators of the first `verifyAuth` of
`src/unnamed/part_001` (lines 191-277): the token
verification (`none` covers both an error and a missing user, which the
code treats alike), a clock for `created_at`, and whether the profile
insert returns an error object. -/
structure AuthEnv where
  getUser : String → Option AuthUser
  now : String
  profileInsertFails : Bool

/-- Outcome of the `verifyAuth` middleware of `src/unnamed/part_001`
(lines 191-277): the three 401 rejections, the 500 provisioning failure, or
`next()` with `req.user` set. -/
inductive AuthResult where
  | noAuthHeader
  | noToken
  | invalidToken
  | provisionFailed
  | ok (userId : String) (profile : ProfileRow)
deriving DecidableEq, Repr

/-- The first `verifyAuth` middleware of `src/unnamed/part_001`
(lines 191-277): strip the `Bearer ` prefix, verify the token with the auth
provider, fetch the profile by the verified user id, provision it when
absent (the surrounding `disable_rls`/`enable_rls` RPCs do not touch the
`profiles` rows), and resolve `req.user` to the verified id. -/
def verifyAuth (env : AuthEnv) (profiles : List ProfileRow) (authHeader : Option String) :
    AuthResult × List ProfileRow :=
  match authHeader with
  | none => (.noAuthHeader, profiles)
  | some h =>
    let token := replaceFirst h "Bearer " ""
    if token = "" then (.noToken, profiles)
    else
      match env.getUser token with
      | none => (.invalidToken, profiles)
      | some u =>
        match profiles.find? (fun p => p.id == u.id) with
        | some p => (.ok u.id p, profiles)
        | none =>
          if env.profileInsertFails then (.provisionFailed, profiles)
          else
            let newP : ProfileRow :=
              { id := u.id, email := u.email,
                full_name := u.meta_full_name.getD "", created_at := env.now }
            (.ok u.id newP, profiles ++ [newP])

/-- External collaborators of the second `verifyAuth` of
`src/unnamed/part_001` (lines 579-639): `getUser` distinguishes a provider
error (which triggers the fallback) from a verified-but-missing user, and
`decodeSub` models the JS decoding of the sub field from the middle token segment — `none`
when decoding throws, `some none` when the decoded payload has no `sub`. -/
structure AuthEnvFB where
  getUser : String → Except Unit (Option AuthUser)
  decodeSub : String → Option (Option String)

/-- Outcome of the fallback-carrying `verifyAuth` of
`src/unnamed/part_001` (lines 579-639); this variant never writes. -/
inductive AuthFBResult where
  | noAuthHeader
  | invalidToken
  | userNotFound
  | profileNotFound
  | ok (userId : String) (email : String)
deriving DecidableEq, Repr

/-- The second `verifyAuth` middleware of `src/unnamed/part_001`
(lines 579-639): when provider verification errors, it decodes the payload segment of the token without any signature check and, if a profile exists for
the decoded `sub`, resolves that identity and calls `next()`. -/
def verifyAuthFallback (env : AuthEnvFB) (profiles : List ProfileRow)
    (authHeader : Option String) : AuthFBResult :=
  match authHeader with
  | none => .noAuthHeader
  | some h =>
    let token := replaceFirst h "Bearer " ""
    match env.getUser token with
    | .error _ =>
      match env.decodeSub token with
      | some (some sub) =>
        match profiles.find? (fun p => p.id == sub) with
        | some p => .ok sub p.email
        | none => .profileNotFound
      | _ => .invalidToken
    | .ok none => .userNotFound
    | .ok (some u) =>
      match profiles.find? (fun p => p.id == u.id) with
      | none => .profileNotFound
      | some p => .ok u.id p.email

/-- Concrete datastore holding the cart of the worked example of the spec:
user `u1` owns cart `c1` with items (P1, price 10.00, qty 2) and
(P2, price 5.00, qty 1). -/
def dbOneCart : Db :=
  { carts := [{ id := "c1", user_id := "u1" }],
    cart_items := [{ cart_id := "c1", product_id := "p1", quantity := 2 },
                   { cart_id := "c1", product_id := "p2", quantity := 1 }],
    products := [{ id := "p1", name := "P1", price := 10 },
                 { id := "p2", name := "P2", price := 5 }],
    orders := [], order_items := [] }

/-- A completed-checkout session for user `u1`, reporting amount 9999
cents (99.99), while the cart of `dbOneCart` sums to 25.00. -/
def sessC : Session :=
  { id := "cs_1", metadata_user_id := some "u1",
    amount_total := 9999, payment_status := "paid" }

/-- The `checkout.session.completed` event carrying `sessC`. -/
def evC : StripeEvent :=
  { type := "checkout.session.completed", session := sessC }

/-- A session whose metadata carries no user id. -/
def sessNoUid : Session :=
  { id := "cs_2", metadata_user_id := none,
    amount_total := 2500, payment_status := "paid" }

/-- The joined cart items of `dbOneCart` for cart `c1`. -/
def joinedSpec : List (CartItemRow × ProductRow) :=
  [({ cart_id := "c1", product_id := "p1", quantity := 2 },
    { id := "p1", name := "P1", price := 10 }),
   ({ cart_id := "c1", product_id := "p2", quantity := 1 },
    { id := "p2", name := "P2", price := 5 })]

/-- Fault vector in which only the cart-clear delete errors. -/
def faultsDeleteFail : DbFaults := { noFaults with cartDeleteFail := true }

/-- Fault vector in which only the order-items insert errors. -/
def faultsItemsFail : DbFaults := { noFaults with itemsInsertFail := true }

/-- Checkout collaborators that find every user and always create a
session `cs_new`. -/
def envCk : CheckoutEnv :=
  { getUserByEmail := fun _ => some "u1", createSession := fun _ => .ok "cs_new" }

/-- Stripe collaborators whose shared-secret check accepts exactly the
signature `sig_good`. -/
def envStripe : StripeEnv :=
  { validSig := fun _ sg => sg == "sig_good",
    parseEvent := fun _ => { type := "checkout.session.completed", session := sessC } }

/-- Auth collaborators for which only the token `tok1` verifies, the
profile insert succeeds, and the clock is fixed. -/
def envAuth : AuthEnv :=
  { getUser := fun t =>
      if t = "tok1" then
        some { id := "u1", email := "e@x.com", meta_full_name := none }
      else none,
    now := "2024-01-01T00:00:00.000Z",
    profileInsertFails := false }

/-- The profile `verifyAuth` provisions for `u1` under `envAuth`. -/
def profU1 : ProfileRow :=
  { id := "u1", email := "e@x.com", full_name := "",
    created_at := "2024-01-01T00:00:00.000Z" }

/-- Auth collaborators whose provider rejects every token while the token
`forged` decodes to a payload with sub `u1`. -/
def envFB : AuthEnvFB :=
  { getUser := fun _ => .error (),
    decodeSub := fun t => if t = "forged" then some (some "u1") else none }

/-- An existing profile row for `u1`. -/
def profFB : ProfileRow :=
  { id := "u1", email := "a@b.c", full_name := "", created_at := "t0" }

/-- Looking up a cart for an absent user id matches no row. -/
theorem cartLookup_none (db : Db) : cartLookup db none = none := by
  have h : db.carts.filter (fun c => (none : Option String) == some c.user_id) = [] := by
    simp
  simp [cartLookup, h]

/-- Filtering for a key immediately after filtering that key away yields
the empty list. -/
theorem filter_bne_beq_nil {α β : Type} [BEq β] (g : α → β) (b : β) (l : List α) :
    (l.filter (fun a => g a != b)).filter (fun a => g a == b) = [] := by
  rw [List.filter_filter]
  have h : ∀ a : α, ((fun a => g a == b) a && (fun a => g a != b) a) = false := by
    intro a
    cases hx : g a == b <;> simp [bne, hx]
  simp only [h, List.filter_false]

/-- C1.  The claim reads: processing the same verified
`checkout.session.completed` notification twice must not materialize two
Orders — at most one Order row per processor session id remains.  The
handler of `src/index.js` has no idempotency guard: the first delivery
clears only `cart_items`, the `carts` row survives, so the replay finds the
cart again, computes an empty-cart total of 0, and inserts a second Order
row with the same `stripe_session_id`.  Both deliveries are acknowledged
with 200 and two Orders for session `cs_1` remain. -/
theorem webhook_replay_inserts_second_order :
    respStatus (handleEvent noFaults dbOneCart evC).1 = 200 ∧
    respStatus (handleEvent noFaults (handleEvent noFaults dbOneCart evC).2.1 evC).1 = 200 ∧
    ((handleEvent noFaults (handleEvent noFaults dbOneCart evC).2.1 evC).2.1.orders.filter
        (fun o => o.stripe_session_id == "cs_1")).length = 2 := by
  decide

/-- C4 counterexample.  The claim reads: for every verified
completed-checkout notification the Order total is the sum over cart items
of price times quantity, independent of the amount the processor reports.
The `src/unnamed/part_000` webhook handler instead records
`session.amount_total / 100`: on the very cart of the spec (sum 25.00) with a
session reporting 9999 cents it persists an Order with total 99.99. -/
theorem materializer_total_trusts_processor_p0 :
    (webhookProcessCompletedP0 noFaults dbOneCart sessC).1 = .received ∧
    ((webhookProcessCompletedP0 noFaults dbOneCart sessC).2.1.orders.map
        (fun o => o.total)) = [(9999 : Rat) / 100] ∧
    cartSum joinedSpec = 25 ∧
    ((9999 : Rat) / 100 ≠ 25) := by
  refine ⟨by decide, rfl, by norm_num [cartSum, joinedSpec], by norm_num⟩

/-- C4 amended.  In the `src/index.js` webhook handler, whenever the cart
lookup and the product join succeed and no datastore write errors, the
total of the inserted Order is the cart sum (the fold of price times quantity),
independent of `session.amount_total`, and exactly one OrderItem row per
joined cart item is appended, carrying the quantity and price of that item. -/
theorem materializer_total_and_items_from_cart
    (f : DbFaults) (db : Db) (s : Session) (cart : CartRow)
    (joined : List (CartItemRow × ProductRow))
    (h1 : cartLookup db s.metadata_user_id = some cart)
    (h2 : f.cartItemsSelectFail = false)
    (h3 : joinItems db cart.id = some joined)
    (h4 : f.orderInsertFail = false)
    (h5 : f.itemsInsertFail = false) :
    (webhookProcessCompleted f db s).2.1.orders =
      db.orders ++ [mkOrderRow db s (cartSum joined)] ∧
    (webhookProcessCompleted f db s).2.1.order_items =
      db.order_items ++ mkOrderItems (nextOrderId db) joined ∧
    (mkOrderItems (nextOrderId db) joined).length = joined.length := by
  simp only [webhookProcessCompleted, h1, h2, h3, h4, h5, Bool.false_eq_true,
    if_false, mkOrderItems, List.length_map]
  cases hc : f.cartDeleteFail <;> simp [mkOrderRow]

/-- C4 witness, at the worked example of the spec: cart
[(P1, 10.00, 2), (P2, 5.00, 1)] gives total 25.00 and exactly 2 OrderItem
rows with those quantities and prices. -/
theorem materializer_total_and_items_from_cart_witness :
    (cartSum joinedSpec = 25 ∧ (mkOrderItems (nextOrderId dbOneCart) joinedSpec).length = 2 ∧
      mkOrderItems (nextOrderId dbOneCart) joinedSpec =
        [{ order_id := "order_0", product_id := "p1", quantity := 2, price := 10 },
         { order_id := "order_0", product_id := "p2", quantity := 1, price := 5 }]) ∧
    ((webhookProcessCompleted noFaults dbOneCart sessC).2.1.orders =
      dbOneCart.orders ++ [mkOrderRow dbOneCart sessC (cartSum joinedSpec)] ∧
    (webhookProcessCompleted noFaults dbOneCart sessC).2.1.order_items =
      dbOneCart.order_items ++ mkOrderItems (nextOrderId dbOneCart) joinedSpec ∧
    (mkOrderItems (nextOrderId dbOneCart) joinedSpec).length = joinedSpec.length) :=
  ⟨⟨by norm_num [cartSum, joinedSpec], by decide, by decide⟩,
   materializer_total_and_items_from_cart noFaults dbOneCart sessC
     { id := "c1", user_id := "u1" } joinedSpec (by decide) rfl (by decide) rfl rfl⟩

/-- C5 counterexample.  The claim reads: a verified completed-checkout
notification whose session metadata lacks a user id fails with
`MissingCorrelation`.  The handler never inspects the metadata: the absent
user id flows into the cart lookup, which matches no row, and the failure
raised is `Cart not found` — not a missing-correlation failure. -/
theorem missing_user_id_fails_as_cart_not_found :
    (webhookProcessCompleted noFaults dbOneCart sessNoUid).1 =
      .processError .cartNotFound ∧
    OrderError.cartNotFound ≠ OrderError.missingCorrelation := by
  decide

/-- C5 amended.  For every verified completed-checkout notification whose
session metadata lacks a user id, the handler fails (HTTP 500) via the
cart-not-found path — the missing id matches no cart — and performs no
datastore writes: the datastore is returned unchanged and the only
operation issued is the cart select. -/
theorem missing_user_id_no_writes (f : DbFaults) (db : Db) (s : Session)
    (h : s.metadata_user_id = none) :
    webhookProcessCompleted f db s =
      (.processError .cartNotFound, db, [.selectCarts]) := by
  unfold webhookProcessCompleted
  rw [h, cartLookup_none]

/-- C5 witness: the no-writes failure at the concrete session `cs_2`
lacking a user id, over the concrete datastore `dbOneCart`. -/
theorem missing_user_id_no_writes_witness :
    webhookProcessCompleted noFaults dbOneCart sessNoUid =
      (.processError .cartNotFound, dbOneCart, [.selectCarts]) :=
  missing_user_id_no_writes noFaults dbOneCart sessNoUid rfl

/-- C10.  For every verified webhook event whose kind is anything other
than `checkout.session.completed`, the handler performs no datastore
operation at all — the state is returned unchanged and the operation trace
is empty — and responds with the `{received: true}` acknowledgement. -/
theorem other_events_acknowledged_untouched (f : DbFaults) (db : Db) (e : StripeEvent)
    (h : e.type ≠ "checkout.session.completed") :
    handleEvent f db e = (.received, db, []) := by
  simp [handleEvent, h]

/-- C10 witness: a `payment_intent.succeeded` event leaves the concrete
datastore untouched and is acknowledged. -/
theorem other_events_acknowledged_untouched_witness :
    handleEvent noFaults dbOneCart
      { type := "payment_intent.succeeded", session := sessC } =
      (.received, dbOneCart, []) :=
  other_events_acknowledged_untouched noFaults dbOneCart
    { type := "payment_intent.succeeded", session := sessC } (by decide)

/-- C2 counterexample.  The claim reads: a checkout request with an empty
line-items list yields the 400 InvalidRequest response and never reaches
the processor.  In the `src/index.js` handler the guard is the JS
truthiness test `!line_items`, and an empty array is truthy: with the three
other fields present the request passes the guard, the user is looked up,
and the processor is called (the boolean records the call), answering 200
with the created session id. -/
theorem empty_line_items_reaches_processor :
    createCheckoutSession envCk
      { line_items := some [], success_url := some "https://s.example/ok",
        cancel_url := some "https://s.example/no", customer_email := some "e@x.com" }
      = (.ok "cs_new", true) := by
  decide

/-- C2 amended.  In the `src/unnamed/part_002` handler, whose guard is
`!line_items?.length`, a request whose line-items list is empty (or absent)
is answered 400 `No items in cart` and the processor is never called; the
`src/index.js` handler rejects only an absent `line_items` field. -/
theorem createCheckoutSessionP2_rejects_empty (env : CheckoutEnv)
    (li : Option (List LineItem)) (h : li = some [] ∨ li = none) :
    createCheckoutSessionP2 env li = (.noItems, false) := by
  rcases h with h | h <;> subst h <;> rfl

/-- C2 witness: the concrete empty list is rejected without a processor
call by the part_002 handler. -/
theorem createCheckoutSessionP2_rejects_empty_witness :
    createCheckoutSessionP2 envCk (some []) = (.noItems, false) :=
  createCheckoutSessionP2_rejects_empty envCk (some []) (Or.inl rfl)

/-- C3.  The claim reads: a webhook request with a missing or invalid
signature is answered 400 with no event processing, and the body is
consumed unparsed up to the point of verification.  In `src/index.js` the
global `express.json()` (line 40) runs before the route-level raw parser,
so the body that reaches `constructEvent` is already parsed: even a
correctly signed request (first two conjuncts: the shared-secret check
accepts the signature over the raw bytes) is rejected 400, because the SDK
refuses a non-raw payload.  The last two conjuncts record that in the
variants that skip JSON parsing for the webhook path a tampered or missing
signature is rejected 400 with no datastore operation, as the claim
demands. -/
theorem webhook_body_parsed_before_verification :
    envStripe.validSig "rawbytes" "sig_good" = true ∧
    webhookRoute bodyAtWebhookIndexJs envStripe noFaults dbOneCart "rawbytes" (some "sig_good")
      = (.sigError "Webhook payload must be provided as a string or a Buffer",
         dbOneCart, []) ∧
    webhookRoute bodyAtWebhookSkipJson envStripe noFaults dbOneCart "rawbytes" (some "sig_bad")
      = (.sigError "signature verification failed", dbOneCart, []) ∧
    webhookRoute bodyAtWebhookSkipJson envStripe noFaults dbOneCart "rawbytes" none
      = (.sigError "No stripe-signature header value was provided", dbOneCart, []) := by
  decide

/-- C6.  The claim reads: for every valid bearer token the Identity
Resolver resolves the same Profile id on repeated calls, and a second call
after a Profile exists creates no second row.  For the `verifyAuth` of
`src/unnamed/part_001`: whenever a call resolves (`next()` with `req.user`
set), the immediately repeated call with the same header resolves the very
same user id and profile and leaves the profiles table exactly as it was —
the first call either found the profile (no write) or provisioned the row
the second call then finds. -/
theorem verifyAuth_idempotent (env : AuthEnv) (profiles profs1 : List ProfileRow)
    (hdr : Option String) (uid : String) (p : ProfileRow)
    (h1 : verifyAuth env profiles hdr = (.ok uid p, profs1)) :
    verifyAuth env profs1 hdr = (.ok uid p, profs1) := by
  cases hdr with
  | none => simp [verifyAuth] at h1
  | some h =>
    by_cases ht : replaceFirst h "Bearer " "" = ""
    · simp [verifyAuth, ht] at h1
    · cases hg : env.getUser (replaceFirst h "Bearer " "") with
      | none => simp [verifyAuth, ht, hg] at h1
      | some u =>
        cases hfind : profiles.find? (fun q => q.id == u.id) with
        | some q =>
          simp [verifyAuth, ht, hg, hfind, Prod.mk.injEq,
            AuthResult.ok.injEq] at h1
          obtain ⟨⟨hu, hq⟩, hp⟩ := h1
          subst hu
          subst hq
          subst hp
          simp [verifyAuth, ht, hg, hfind]
        | none =>
          cases hins : env.profileInsertFails with
          | true => simp [verifyAuth, ht, hg, hfind, hins] at h1
          | false =>
            simp [verifyAuth, ht, hg, hfind, hins, Prod.mk.injEq,
              AuthResult.ok.injEq] at h1
            obtain ⟨⟨hu, hq⟩, hp⟩ := h1
            subst hu
            subst hq
            subst hp
            simp [verifyAuth, ht, hg, List.find?_append, hfind]

/-- C6 witness: under `envAuth` the token `tok1` provisions `profU1` on
first sight, and the repeated call resolves the identical id `u1` against
the unchanged one-row table. -/
theorem verifyAuth_idempotent_witness :
    verifyAuth envAuth [profU1] (some "Bearer tok1") = (.ok "u1" profU1, [profU1]) :=
  verifyAuth_idempotent envAuth [] [profU1] (some "Bearer tok1") "u1" profU1 (by decide)

/-- C7.  The claim reads: a bearer token that fails provider verification
is always answered Unauthenticated, with no fallback that accepts an
identity decoded from the payload segment of the token without signature
verification.  The second `verifyAuth` of `src/unnamed/part_001` has
exactly that fallback: under collaborators whose provider rejects every
token, the token `forged` — whose payload segment decodes to sub `u1`, for
which a profile exists — is resolved to the identity `u1` and the request
proceeds authenticated. -/
theorem verifyAuthFallback_accepts_unverified :
    verifyAuthFallback envFB [profFB] (some "Bearer forged") = .ok "u1" "a@b.c" := by
  decide

/-- C8 counterexample.  The claim reads: whenever the handler responds with
the success acknowledgement, the originating cart has zero remaining
items.  The `src/index.js` handler ignores the error object of the
cart-items delete: when that delete fails, the handler still acknowledges
with `{received: true}` while both rows of cart `c1` remain. -/
theorem cart_clear_failure_still_acknowledged :
    (webhookProcessCompleted faultsDeleteFail dbOneCart sessC).1 = .received ∧
    ((webhookProcessCompleted faultsDeleteFail dbOneCart sessC).2.1.cart_items.filter
        (fun ci => ci.cart_id == "c1")).length = 2 := by
  decide

/-- C8 amended.  Whenever the handler responds with the success
acknowledgement and the cart-items delete did not fail (its error object is
ignored, so the acknowledgement alone does not entail it), the originating
cart has zero remaining items. -/
theorem cart_cleared_when_delete_succeeds (f : DbFaults) (db : Db) (s : Session)
    (cart : CartRow)
    (h1 : cartLookup db s.metadata_user_id = some cart)
    (hf : f.cartDeleteFail = false)
    (hr : (webhookProcessCompleted f db s).1 = .received) :
    ((webhookProcessCompleted f db s).2.1.cart_items.filter
        (fun ci => ci.cart_id == cart.id)) = [] := by
  cases h2 : f.cartItemsSelectFail with
  | true => simp [webhookProcessCompleted, h1, h2] at hr
  | false =>
    cases h3 : joinItems db cart.id with
    | none => simp [webhookProcessCompleted, h1, h2, h3] at hr
    | some joined =>
      cases h4 : f.orderInsertFail with
      | true => simp [webhookProcessCompleted, h1, h2, h3, h4] at hr
      | false =>
        cases h5 : f.itemsInsertFail with
        | true => simp [webhookProcessCompleted, h1, h2, h3, h4, h5] at hr
        | false =>
          simp only [webhookProcessCompleted, h1, h2, h3, h4, h5, hf,
            Bool.false_eq_true, if_false]
          exact filter_bne_beq_nil (fun ci => ci.cart_id) cart.id db.cart_items

/-- C8 witness: with no datastore fault, processing the concrete completed
checkout leaves cart `c1` with zero items. -/
theorem cart_cleared_when_delete_succeeds_witness :
    ((webhookProcessCompleted noFaults dbOneCart sessC).2.1.cart_items.filter
        (fun ci => ci.cart_id == "c1")) = [] :=
  cart_cleared_when_delete_succeeds noFaults dbOneCart sessC
    { id := "c1", user_id := "u1" } (by decide) rfl (by decide)

/-- C9 counterexample.  The claim reads: any materialization step failing
after the Order insert — for example the cart clear — leaves the Order row
and makes the handler respond 500.  When the cart-clear delete fails, the
inserted Order for session `cs_1` does remain, but the handler responds
200 `{received: true}` (the error object of the delete is ignored), not 500. -/
theorem cart_clear_failure_not_500 :
    respStatus (webhookProcessCompleted faultsDeleteFail dbOneCart sessC).1 = 200 ∧
    ((webhookProcessCompleted faultsDeleteFail dbOneCart sessC).2.1.orders.filter
        (fun o => o.stripe_session_id == "cs_1")).length = 1 ∧
    (webhookProcessCompleted faultsDeleteFail dbOneCart sessC).2.1.cart_items ≠ [] := by
  decide

/-- C9 amended.  If the OrderItem insert fails after the Order insert, the
already-inserted Order row (carrying the session id) remains in the
datastore — nothing is rolled back, no OrderItem row is written — and the
handler responds 500; a failure of the subsequent cart clear also leaves
the Order but is ignored, so the handler then responds with the success
acknowledgement instead of 500. -/
theorem items_insert_failure_leaves_order (f : DbFaults) (db : Db) (s : Session)
    (cart : CartRow) (joined : List (CartItemRow × ProductRow))
    (h1 : cartLookup db s.metadata_user_id = some cart)
    (h2 : f.cartItemsSelectFail = false)
    (h3 : joinItems db cart.id = some joined)
    (h4 : f.orderInsertFail = false)
    (h5 : f.itemsInsertFail = true) :
    (webhookProcessCompleted f db s).1 = .processError .orderItemsError ∧
    respStatus (webhookProcessCompleted f db s).1 = 500 ∧
    (webhookProcessCompleted f db s).2.1.orders =
      db.orders ++ [mkOrderRow db s (cartSum joined)] ∧
    (webhookProcessCompleted f db s).2.1.order_items = db.order_items := by
  simp [webhookProcessCompleted, h1, h2, h3, h4, h5, respStatus]

/-- C9 witness: the order-items insert failing on the concrete datastore
leaves the inserted Order and answers 500. -/
theorem items_insert_failure_leaves_order_witness :
    (webhookProcessCompleted faultsItemsFail dbOneCart sessC).1 =
      .processError .orderItemsError ∧
    respStatus (webhookProcessCompleted faultsItemsFail dbOneCart sessC).1 = 500 ∧
    (webhookProcessCompleted faultsItemsFail dbOneCart sessC).2.1.orders =
      dbOneCart.orders ++ [mkOrderRow dbOneCart sessC (cartSum joinedSpec)] ∧
    (webhookProcessCompleted faultsItemsFail dbOneCart sessC).2.1.order_items =
      dbOneCart.order_items :=
  items_insert_failure_leaves_order faultsItemsFail dbOneCart sessC
    { id := "c1", user_id := "u1" } joinedSpec (by decide) rfl (by decide) rfl rfl
